import Mathlib

/-!
Shallow embedding of the mediawiki.js client (lavgup/mediawiki.js).

The repository snapshot carries two generations of the API layer:
the rewritten `src/API.js` (private cookie jar, cached `#mwToken`,
badtoken refresh inside `#mw`) modelled in namespace `API`, and the
older `api.js` (shared `options.jar`, plain `get`/`post` and the
discussion-service `send`/`postF`/`put`/`delete`) modelled in
namespace `OldAPI`.  The facade `src/index.js` is modelled in
namespace `MediaWikiJS`.

HTTP is modelled by an oracle `Env : Nat -> HttpResponse` consumed in
call order; every network operation is deterministic given the oracle.
The badtoken recursion of `API.mw` is bounded by an explicit fuel
argument; `JsOutcome.outOfFuel` marks a computation that did not
finish within the given fuel (the JavaScript original has no bound).
-/

/-- JavaScript values as they appear in parsed JSON response bodies and
in the expressions of the source; `undefined` stands for the JavaScript
value `undefined`, which member access yields for a missing field. -/
inductive Json where
  | undefined
  | null
  | bool (b : Bool)
  | num (n : Int)
  | str (s : String)
  | arr (elems : List Json)
  | obj (fields : List (String × Json))

/-- JavaScript truthiness: `undefined`, `null`, `false`, `0` and the
empty string are falsy; arrays and objects are always truthy. -/
def Json.truthy : Json → Bool
  | .undefined => false
  | .null => false
  | .bool b => b
  | .num n => n != 0
  | .str s => s != ""
  | .arr _ => true
  | .obj _ => true

/-- Member access `v.k`: the field value for objects, `undefined`
otherwise.  Call sites in the source either guard the receiver with a
truthiness check or use optional chaining, except the legacy-token
extraction, whose throwing accesses are modelled by `legacyEditToken`. -/
def Json.getField : Json → String → Json
  | .obj fields, k => (List.lookup k fields).getD .undefined
  | _, _ => .undefined

/-- Strict equality `v === 's'` against a string literal. -/
def Json.isStr : Json → String → Bool
  | .str t, s => t == s
  | _, _ => false

mutual

/-- JavaScript String() coercion, as used by template literals. -/
def jsString : Json → String
  | .undefined => "undefined"
  | .null => "null"
  | .bool b => if b then "true" else "false"
  | .num n => toString n
  | .str s => s
  | .arr elems => String.intercalate "," (jsStringElems elems)
  | .obj _ => "[object Object]"

/-- Array elements under String() coercion (Array.prototype.toString
and Array.prototype.join): null and undefined print as empty. -/
def jsStringElems : List Json → List String
  | [] => []
  | .undefined :: rest => "" :: jsStringElems rest
  | .null :: rest => "" :: jsStringElems rest
  | e :: rest => jsString e :: jsStringElems rest

end

/-- `xs.join(sep)` on a JavaScript array. -/
def jsJoin (xs : List Json) (sep : String) : String :=
  String.intercalate sep (jsStringElems xs)

/-- `s.startsWith(pre)` on a JavaScript string. -/
def strStartsWith (s pre : String) : Bool :=
  pre.toList.isPrefixOf s.toList

/-- JSON string escaping for JSON.stringify. -/
def jsonEscape (s : String) : String :=
  String.join (s.toList.map (fun c =>
    if c = '"' then "\\\""
    else if c = '\\' then "\\\\"
    else if c = '\n' then "\\n"
    else if c = '\r' then "\\r"
    else if c = '\t' then "\\t"
    else String.singleton c))

mutual

/-- JSON.stringify on the values the source serializes: object fields
holding undefined are dropped, undefined array elements print as null. -/
def jsonStringify : Json → String
  | .undefined => "null"
  | .null => "null"
  | .bool b => if b then "true" else "false"
  | .num n => toString n
  | .str s => "\"" ++ jsonEscape s ++ "\""
  | .arr elems => "[" ++ String.intercalate "," (jsonStringifyElems elems) ++ "]"
  | .obj fields => "\x7b" ++ String.intercalate "," (jsonStringifyFields fields) ++ "\x7d"

/-- Array elements under JSON.stringify. -/
def jsonStringifyElems : List Json → List String
  | [] => []
  | .undefined :: rest => "null" :: jsonStringifyElems rest
  | e :: rest => jsonStringify e :: jsonStringifyElems rest

/-- Object fields under JSON.stringify. -/
def jsonStringifyFields : List (String × Json) → List String
  | [] => []
  | (_, .undefined) :: rest => jsonStringifyFields rest
  | (k, v) :: rest => ("\"" ++ jsonEscape k ++ "\":" ++ jsonStringify v) :: jsonStringifyFields rest

end

/-- Property assignment `o[k] = v` on a JavaScript object: updates the
value in place if the key exists, appends the key otherwise. -/
def objSet (o : List (String × Json)) (k : String) (v : Json) : List (String × Json) :=
  cond (o.any (fun p => p.1 == k))
    (o.map (fun p => cond (p.1 == k) (k, v) p))
    (o ++ [(k, v)])

/-- A JavaScript object literal (possibly with spreads written out as
inline pairs): later occurrences of a key overwrite the value while the
key keeps its first position. -/
def objLit (pairs : List (String × Json)) : List (String × Json) :=
  pairs.foldl (fun acc kv => objSet acc kv.1 kv.2) []

/-- Property read `o.k` on a JavaScript object value. -/
def objGet (o : List (String × Json)) (k : String) : Json :=
  (List.lookup k o).getD .undefined

/-- The expression `a || b`. -/
def jsOr (a b : Json) : Json := if a.truthy then a else b

/-- The message table of src/MediaWikiJSError.js; the constructor
throws a TypeError for a key missing from the table, rendered as none. -/
def errMessage (key : String) (arg : Json) : Option String :=
  if key == "CANT_GET_TOKEN" then some "Failed to get token."
  else if key == "FAILED_LOGIN" then some ("Login was unsuccessful: " ++ jsString arg)
  else if key == "LOADING_CONFIG" then some ("Failed to load config: " ++ jsString arg)
  else if key == "MEDIAWIKI_ERROR" then some ("Error returned by API: " ++ jsString arg)
  else if key == "NO_CONFIG" then some "No configuration was provided."
  else none

/-- A thrown MediaWikiJSError as observed by a caller: the `code`
property is the message key and `message` the rendered text. -/
structure MediaWikiJSError where
  code : String
  message : String
deriving DecidableEq

/-- Construction of a MediaWikiJSError value from its key and (first)
argument; `arg := Json.undefined` models a call with no argument. -/
def mkMediaWikiJSError (key : String) (arg : Json) : Option MediaWikiJSError :=
  (errMessage key arg).map (fun m => { code := key, message := m })

/-- One HTTP response delivered by the network: the parsed body
(`Json.undefined` when no body came back) and the cookies that the
response sets in the cookie jar. -/
structure HttpResponse where
  body : Json
  cookies : List String

/-- The network oracle: the response to the n-th HTTP call made by the
client, counted across all operations of the session. -/
abbrev Env := Nat → HttpResponse

/-- The observable record of one issued HTTP call: target url, verb,
the form/searchParams payload, and the cookie jar contents sent. -/
structure HttpCall where
  url : String
  method : String
  form : List (String × Json)
  jar : List String

/-- How a modelled operation ends: a resolved value, a thrown
MediaWikiJSError (by key and first argument), a thrown plain Error,
a JavaScript TypeError, or fuel exhaustion of the badtoken recursion
(which is unbounded in the source). -/
inductive JsOutcome where
  | ok (v : Json)
  | mwjsError (key : String) (arg : Json)
  | plainError (msg : String)
  | jsCrash
  | outOfFuel

namespace API

/-- The mutable state of the rewritten src/API.js: private server,
path, cookie jar and cached token, plus the count of HTTP calls made
so far (the index into the network oracle). -/
structure State where
  server : String
  path : String
  jar : List String
  mwToken : Json
  calls : Nat

/-- The API constructor: fresh private CookieJar and the sentinel
token value. It ignores any jar passed in the options. -/
def mkApi (server path : String) : State :=
  { server := server, path := path, jar := [], mwToken := .str "+\\", calls := 0 }

/-- API.logout: reset the cached token to the sentinel and remove all
cookies from the private jar. No HTTP call is made. -/
def logout (st : State) : State :=
  { st with mwToken := .str "+\\", jar := [] }

/-- API.setServer: repoint server and path, then logout. -/
def setServer (server path : String) (st : State) : State :=
  logout { st with server := server, path := path }

/-- The state after one HTTP exchange: the call counter advances and
the response cookies are merged into the jar. -/
def bump (env : Env) (st : State) : State :=
  { st with calls := st.calls + 1, jar := st.jar ++ (env st.calls).cookies }

/-- The token-retrieval parameters issued by the badtoken branch. -/
def tokenParams : List (String × Json) :=
  [("action", .str "query"), ("meta", .str "tokens"), ("type", .str "csrf")]

/-- The MW 1.19 fallback token-retrieval parameters. -/
def legacyParams : List (String × Json) :=
  [("action", .str "query"), ("prop", .str "info"), ("intoken", .str "edit"), ("titles", .str "F")]

/-- The payload sent by one `#mw` attempt: the caller parameters with
format and formatversion injected, and the cached token attached when
the csrf flag is set. -/
def mwPayload (params : List (String × Json)) (csrf : Bool) (tok : Json) : List (String × Json) :=
  let base := objLit (params ++ [("format", .str "json"), ("formatversion", .num 2)])
  if csrf then objSet base "token" tok else base

/-- `Object.values(tokenPack.query.pages)[0].edittoken`: the unguarded
member accesses of the fallback throw a TypeError (modelled as error)
when query or pages is missing or pages is empty. -/
def legacyEditToken (pack : Json) : Except Unit Json :=
  match (pack.getField "query").getField "pages" with
  | .obj [] => .error ()
  | .obj ((_, v) :: _) => .ok (v.getField "edittoken")
  | .arr [] => .error ()
  | .arr (v :: _) => .ok (v.getField "edittoken")
  | _ => .error ()

/-- The observable record of one `#mw` attempt issued from a state. -/
def attemptCall (params : List (String × Json)) (csrf : Bool) (method : String)
    (st : State) : HttpCall :=
  { url := st.server ++ st.path ++ "/api.php", method := method,
    form := mwPayload params csrf st.mwToken, jar := st.jar }

/-- `#mw(params, csrf, method)` of src/API.js. One HTTP call; no body
fails with MEDIAWIKI_ERROR; an error envelope with code badtoken
refreshes the cached token through the token-retrieval call (falling
back to the MW 1.19 pattern when no csrf token is returned) and then
re-dispatches the whole call — the source recursion has no bound, so
the fuel argument only bounds the model; any other error envelope
fails with MEDIAWIKI_ERROR carrying the envelope's info field.
Cookies set by a response are merged into the private jar.  Returns
the outcome, the final state, and the trace of issued HTTP calls. -/
def mw (env : Env) : Nat → List (String × Json) → Bool → String → State →
    JsOutcome × State × List HttpCall
  | 0, _, _, _, st => (.outOfFuel, st, [])
  | fuel + 1, params, csrf, method, st =>
    let call : HttpCall := attemptCall params csrf method st
    let resp := env st.calls
    let st1 : State := { st with calls := st.calls + 1, jar := st.jar ++ resp.cookies }
    let t : JsOutcome × State × List HttpCall :=
      if resp.body.truthy = false then
        (.mwjsError "MEDIAWIKI_ERROR" (.str "Request did not return a body"), st1, [])
      else if (resp.body.getField "error").truthy then
        if ((resp.body.getField "error").getField "code").isStr "badtoken" then
          match mw env fuel tokenParams false "get" st1 with
          | (.ok tokenPack, st2, tr2) =>
            let ctok := ((tokenPack.getField "query").getField "tokens").getField "csrftoken"
            if ctok.truthy then
              match mw env fuel params csrf method { st2 with mwToken := ctok } with
              | (r, st4, tr4) => (r, st4, tr2 ++ tr4)
            else
              match mw env fuel legacyParams false "get" st2 with
              | (.ok pack2, st3, tr3) =>
                match legacyEditToken pack2 with
                | .error _ => (.jsCrash, st3, tr2 ++ tr3)
                | .ok tok =>
                  match mw env fuel params csrf method { st3 with mwToken := tok } with
                  | (r, st5, tr5) => (r, st5, tr2 ++ (tr3 ++ tr5))
              | (r, st3, tr3) => (r, st3, tr2 ++ tr3)
          | (r, st2, tr2) => (r, st2, tr2)
        else
          (.mwjsError "MEDIAWIKI_ERROR" ((resp.body.getField "error").getField "info"), st1, [])
      else
        (.ok resp.body, st1, [])
    (t.1, t.2.1, call :: t.2.2)

/-- API.get: dispatch through `#mw` with the GET verb. -/
def get (env : Env) (fuel : Nat) (params : List (String × Json)) (csrf : Bool) (st : State) :
    JsOutcome × State × List HttpCall :=
  mw env fuel params csrf "get" st

/-- API.post: dispatch through `#mw` with the POST verb. -/
def post (env : Env) (fuel : Nat) (params : List (String × Json)) (csrf : Bool) (st : State) :
    JsOutcome × State × List HttpCall :=
  mw env fuel params csrf "post" st

end API

namespace OldAPI

/-- The state of the older api.js: server, path and the cookie jar
taken from the constructor options (`this.jar = options.jar`, the
facade's jar), plus the HTTP call counter. There is no token cache. -/
structure State where
  server : String
  path : String
  jar : List String
  calls : Nat

/-- Old api.js get: one GET to api.php with format=json injected, the
shared jar as cookieJar; no body or an error envelope throws
MEDIAWIKI_ERROR. -/
def get (env : Env) (params : List (String × Json)) (st : State) :
    JsOutcome × State × List HttpCall :=
  let call : HttpCall :=
    { url := st.server ++ st.path ++ "/api.php", method := "get",
      form := objLit (params ++ [("format", .str "json")]), jar := st.jar }
  let resp := env st.calls
  let st1 : State := { st with calls := st.calls + 1, jar := st.jar ++ resp.cookies }
  let t : JsOutcome :=
    if resp.body.truthy = false then
      .mwjsError "MEDIAWIKI_ERROR" (.str "Request did not return a body")
    else if (resp.body.getField "error").truthy then
      .mwjsError "MEDIAWIKI_ERROR" ((resp.body.getField "error").getField "info")
    else
      .ok resp.body
  (t, st1, [call])

/-- Old api.js post: as `get` but with the POST verb and form payload. -/
def post (env : Env) (params : List (String × Json)) (st : State) :
    JsOutcome × State × List HttpCall :=
  let call : HttpCall :=
    { url := st.server ++ st.path ++ "/api.php", method := "post",
      form := objLit (params ++ [("format", .str "json")]), jar := st.jar }
  let resp := env st.calls
  let st1 : State := { st with calls := st.calls + 1, jar := st.jar ++ resp.cookies }
  let t : JsOutcome :=
    if resp.body.truthy = false then
      .mwjsError "MEDIAWIKI_ERROR" (.str "Request did not return a body")
    else if (resp.body.getField "error").truthy then
      .mwjsError "MEDIAWIKI_ERROR" ((resp.body.getField "error").getField "info")
    else
      .ok resp.body
  (t, st1, [call])

/-- Old api.js send(url, params, method): one HTTP call to an
arbitrary url with the shared jar as cookieJar; a truthy body with a
truthy error field throws MEDIAWIKI_ERROR, otherwise the body passes
through.  Bodies are modelled as already-parsed JSON values, for which
the source's JSON.parse attempt throws and the catch returns the body
unchanged; re-parsing of raw string bodies is outside the model. -/
def send (env : Env) (url : String) (params : List (String × Json)) (method : String)
    (st : State) : JsOutcome × State × List HttpCall :=
  let call : HttpCall := { url := url, method := method, form := params, jar := st.jar }
  let resp := env st.calls
  let st1 : State := { st with calls := st.calls + 1, jar := st.jar ++ resp.cookies }
  let t : JsOutcome :=
    if resp.body.truthy && (resp.body.getField "error").truthy then
      .mwjsError "MEDIAWIKI_ERROR" ((resp.body.getField "error").getField "info")
    else
      .ok resp.body
  (t, st1, [call])

/-- Old api.js postF. -/
def postF (env : Env) (url : String) (params : List (String × Json)) (st : State) :
    JsOutcome × State × List HttpCall :=
  send env url params "post" st

/-- Old api.js put. -/
def put (env : Env) (url : String) (params : List (String × Json)) (st : State) :
    JsOutcome × State × List HttpCall :=
  send env url params "put" st

/-- Old api.js delete. -/
def delete (env : Env) (url : String) (params : List (String × Json)) (st : State) :
    JsOutcome × State × List HttpCall :=
  send env url params "delete" st

end OldAPI

namespace MediaWikiJS

/-- The facade state of src/index.js: configuration fields, the
facade's own CookieJar `this.jar`, and the owned API instance. The
constructor passes `jar: this.jar` to the API, but the rewritten
API.js ignores it and creates a private jar of its own. -/
structure ClientState where
  server : String
  path : String
  botUsername : Json
  botPassword : Json
  accountUsername : Json
  accountPassword : Json
  wikiId : Json
  jar : List String
  api : API.State

/-- The MediaWikiJS constructor from an options object (the
fire-and-forget login/whoAmI priming is a background task with no
synchronous effect on this state and is not modelled). -/
def mkClient (server path : String)
    (botUsername botPassword accountUsername accountPassword wikiId : Json) : ClientState :=
  { server := server, path := path,
    botUsername := botUsername, botPassword := botPassword,
    accountUsername := accountUsername, accountPassword := accountPassword,
    wikiId := wikiId, jar := [], api := API.mkApi server path }

/-- MediaWikiJS.logout: `this.jar.removeAllCookies()` — it empties only
the facade's own jar, touches neither the API's private jar nor the
cached token, and issues no HTTP call (empty trace). -/
def logout (cs : ClientState) : ClientState × List HttpCall :=
  ({ cs with jar := [] }, [])

/-- The parameters of the first login step. -/
def loginTokenParams : List (String × Json) :=
  objLit [("action", .str "query"), ("meta", .str "tokens"),
          ("type", .str "login"), ("format", .str "json")]

/-- The parameters of the second login step, with the logintoken read
from the first response. -/
def loginSubmit (cs : ClientState) (initialReq : Json) : List (String × Json) :=
  objLit [("action", .str "login"), ("lgname", cs.botUsername),
          ("lgpassword", cs.botPassword),
          ("lgtoken", ((initialReq.getField "query").getField "tokens").getField "logintoken"),
          ("format", .str "json")]

/-- MediaWikiJS.login: post the login-token query; when the response
has truthy query.tokens, post action=login with the credentials and
the logintoken and return that response as-is; otherwise throw
FAILED_LOGIN (with no argument). -/
def login (env : Env) (fuel : Nat) (cs : ClientState) :
    JsOutcome × ClientState × List HttpCall :=
  match API.post env fuel loginTokenParams false cs.api with
  | (.ok initialReq, st1, tr1) =>
    if initialReq.truthy && (initialReq.getField "query").truthy
        && ((initialReq.getField "query").getField "tokens").truthy then
      match API.post env fuel (loginSubmit cs initialReq) false st1 with
      | (r, st2, tr2) => (r, { cs with api := st2 }, tr1 ++ tr2)
    else
      (.mwjsError "FAILED_LOGIN" .undefined, { cs with api := st1 }, tr1)
  | (r, st1, tr1) => (r, { cs with api := st1 }, tr1)

/-- MediaWikiJS.getToken: fetch a csrf token through api.get and
validate the response shape; a missing or sentinel token throws the
plain Error CANT_GET_TOKEN. -/
def getToken (env : Env) (fuel : Nat) (st : API.State) :
    JsOutcome × API.State × List HttpCall :=
  match API.get env fuel [("action", .str "query"), ("meta", .str "tokens"),
      ("type", .str "csrf")] false st with
  | (.ok body, st1, tr1) =>
    if !body.truthy || !(body.getField "query").truthy
        || !((body.getField "query").getField "tokens").truthy
        || !(((body.getField "query").getField "tokens").getField "csrftoken").truthy
        || (((body.getField "query").getField "tokens").getField "csrftoken").isStr "+\\" then
      (.plainError "CANT_GET_TOKEN", st1, tr1)
    else
      (.ok (((body.getField "query").getField "tokens").getField "csrftoken"), st1, tr1)
  | (r, st1, tr1) => (r, st1, tr1)

/-- The parameters posted by MediaWikiJS.doEdit: the object literal
with action, bot, a minor default that the spread immediately
overwrites, the caller params spread in, and the fetched token. -/
def doEditParams (params : List (String × Json)) (token : Json) : List (String × Json) :=
  objLit ([("action", .str "edit"), ("bot", .str ""),
           ("minor", jsOr (objGet params "minor") (.str ""))]
          ++ params ++ [("token", token)])

/-- MediaWikiJS.doEdit: fetch a token, then post the edit. -/
def doEdit (env : Env) (fuel : Nat) (params : List (String × Json)) (st : API.State) :
    JsOutcome × API.State × List HttpCall :=
  match getToken env fuel st with
  | (.ok token, st1, tr1) =>
    match API.post env fuel (doEditParams params token) false st1 with
    | (r, st2, tr2) => (r, st2, tr1 ++ tr2)
  | (r, st1, tr1) => (r, st1, tr1)

/-- The options object of edit, prepend and append; `minor := none`
models an absent property, to which the destructuring default true
applies. -/
structure EditOptions where
  title : Json
  content : Json
  summary : Json
  minor : Option Json

/-- MediaWikiJS.edit: full-text edit through doEdit. -/
def edit (env : Env) (fuel : Nat) (opts : EditOptions) (st : API.State) :
    JsOutcome × API.State × List HttpCall :=
  doEdit env fuel (objLit [("title", opts.title), ("text", opts.content),
    ("summary", opts.summary), ("minor", opts.minor.getD (.bool true))]) st

/-- MediaWikiJS.prepend: prepend-text edit through doEdit. -/
def prepend (env : Env) (fuel : Nat) (opts : EditOptions) (st : API.State) :
    JsOutcome × API.State × List HttpCall :=
  doEdit env fuel (objLit [("title", opts.title), ("prependtext", opts.content),
    ("summary", opts.summary), ("minor", opts.minor.getD (.bool true))]) st

/-- MediaWikiJS.append: append-text edit through doEdit. -/
def append (env : Env) (fuel : Nat) (opts : EditOptions) (st : API.State) :
    JsOutcome × API.State × List HttpCall :=
  doEdit env fuel (objLit [("title", opts.title), ("appendtext", opts.content),
    ("summary", opts.summary), ("minor", opts.minor.getD (.bool true))]) st

/-- The options object of protect; `protections` is the JavaScript
mapping whose Object.entries order (insertion order for its
non-numeric keys) the list order represents; `cascade := none` models
an absent property defaulting to false. -/
structure ProtectOptions where
  title : Json
  protections : List (String × Json)
  expiry : Json
  reason : Json
  cascade : Option Json

/-- The serialized protections string: key=value pairs joined by the
pipe, in mapping-iteration order. -/
def formattedProtections (protections : List (String × Json)) : String :=
  String.intercalate "|" (protections.map (fun kv => kv.1 ++ "=" ++ jsString kv.2))

/-- MediaWikiJS.protect: fetch a token, serialize the protections
mapping, and post the protect action. -/
def protect (env : Env) (fuel : Nat) (opts : ProtectOptions) (st : API.State) :
    JsOutcome × API.State × List HttpCall :=
  match getToken env fuel st with
  | (.ok token, st1, tr1) =>
    match API.post env fuel
        (objLit [("action", .str "protect"), ("title", opts.title),
                 ("protections", .str (formattedProtections opts.protections)),
                 ("expiry", opts.expiry), ("reason", opts.reason),
                 ("cascade", opts.cascade.getD (.bool false)), ("token", token)])
        false st1 with
    | (r, st2, tr2) => (r, st2, tr1 ++ tr2)
  | (r, st1, tr1) => (r, st1, tr1)

/-- The non-category branch of purge: normalize to an array, then join
numeric entries as pageids and anything else as titles. -/
def purgeTail (params : List (String × Json)) (titles : Json) : List (String × Json) :=
  match titles with
  | .arr xs =>
    match xs.head? with
    | some (.num _) => objSet params "pageids" (.str (jsJoin xs "|"))
    | _ => objSet params "titles" (.str (jsJoin xs "|"))
  | j => objSet params "titles" (.str (jsJoin [j] "|"))

/-- MediaWikiJS.purge parameter construction: a single string starting
with the category prefix becomes a generator purge; any other input is
normalized to an array and joined. -/
def purgeParams (titles : Json) : List (String × Json) :=
  let params := [("action", Json.str "purge")]
  match titles with
  | .str s =>
    if strStartsWith s "Category:" then
      objSet (objSet params "generator" (.str "categorymembers")) "gcmtitle" (.str s)
    else
      purgeTail params (.arr [.str s])
  | .arr xs => purgeTail params (.arr xs)
  | j => purgeTail params (.arr [j])

/-- MediaWikiJS.purge: post the constructed purge parameters (no token
is fetched for purge). -/
def purge (env : Env) (fuel : Nat) (titles : Json) (st : API.State) :
    JsOutcome × API.State × List HttpCall :=
  API.post env fuel (purgeParams titles) false st

/-- DISCUSSIONS_BASE_URL, derived from the wiki id. -/
def discussionsBaseUrl (wikiId : Json) : String :=
  "https://services.fandom.com/discussion/" ++ jsString wikiId

/-- The got options object sent by every thread lifecycle call. -/
def jsonHeaders : List (String × Json) :=
  [("headers", .obj [("Content-Type", .str "application/json")])]

/-- MediaWikiJS.getFandomCookies: POST the account credentials to the
discussion-service token endpoint through api.postF. The discussion
path runs against the older api.js, the only API class in the
repository that implements postF, put and delete. -/
def getFandomCookies (env : Env) (accountUsername accountPassword : Json)
    (st : OldAPI.State) : JsOutcome × OldAPI.State × List HttpCall :=
  OldAPI.postF env "https://services.fandom.com/auth/token"
    [("form", .obj [("username", accountUsername), ("password", accountPassword)])] st

/-- The JSON body of a thread-creation request. -/
def postThreadBody (wikiId title content : Json) : Json :=
  .obj [("body", title),
        ("jsonModel", .str (jsonStringify (.obj [("type", .str "doc"),
          ("content", .arr [.obj [("type", .str "paragraph"),
            ("content", .arr [.obj [("type", .str "text"), ("text", content)]])]])]))),
        ("attachments", .obj [("contentImages", .arr []), ("openGraphs", .arr []),
          ("atMentions", .arr [])]),
        ("forumId", wikiId), ("siteId", wikiId), ("title", title),
        ("source", .str "DESKTOP_WEB_FEPO"), ("funnel", .str "TEXT"),
        ("articleIds", .arr [])]

/-- MediaWikiJS.post (thread creation): fetch fresh discussion cookies,
then POST the thread body to forums/{category}/threads; `category :=
none` models an absent property defaulting to the wiki id. -/
def post (env : Env) (accountUsername accountPassword wikiId : Json)
    (title content : Json) (category : Option Json) (st : OldAPI.State) :
    JsOutcome × OldAPI.State × List HttpCall :=
  match getFandomCookies env accountUsername accountPassword st with
  | (.ok _, st1, tr1) =>
    match OldAPI.postF env
        (discussionsBaseUrl wikiId ++ "/forums/" ++ jsString (category.getD wikiId) ++ "/threads")
        (objLit [("body", .str (jsonStringify (postThreadBody wikiId title content))),
                 ("headers", .obj [("Content-Type", .str "application/json")])]) st1 with
    | (r, st2, tr2) => (r, st2, tr1 ++ tr2)
  | (r, st1, tr1) => (r, st1, tr1)

/-- MediaWikiJS.deletePost: fresh cookies, then one PUT to
threads/{id}/delete. -/
def deletePost (env : Env) (accountUsername accountPassword wikiId : Json)
    (id : Json) (st : OldAPI.State) : JsOutcome × OldAPI.State × List HttpCall :=
  match getFandomCookies env accountUsername accountPassword st with
  | (.ok _, st1, tr1) =>
    match OldAPI.put env (discussionsBaseUrl wikiId ++ "/threads/" ++ jsString id ++ "/delete")
        jsonHeaders st1 with
    | (r, st2, tr2) => (r, st2, tr1 ++ tr2)
  | (r, st1, tr1) => (r, st1, tr1)

/-- MediaWikiJS.undeletePost: fresh cookies, then one PUT to
threads/{id}/undelete. -/
def undeletePost (env : Env) (accountUsername accountPassword wikiId : Json)
    (id : Json) (st : OldAPI.State) : JsOutcome × OldAPI.State × List HttpCall :=
  match getFandomCookies env accountUsername accountPassword st with
  | (.ok _, st1, tr1) =>
    match OldAPI.put env (discussionsBaseUrl wikiId ++ "/threads/" ++ jsString id ++ "/undelete")
        jsonHeaders st1 with
    | (r, st2, tr2) => (r, st2, tr1 ++ tr2)
  | (r, st1, tr1) => (r, st1, tr1)

/-- MediaWikiJS.lockPost: fresh cookies, then one PUT to
threads/{id}/lock. -/
def lockPost (env : Env) (accountUsername accountPassword wikiId : Json)
    (id : Json) (st : OldAPI.State) : JsOutcome × OldAPI.State × List HttpCall :=
  match getFandomCookies env accountUsername accountPassword st with
  | (.ok _, st1, tr1) =>
    match OldAPI.put env (discussionsBaseUrl wikiId ++ "/threads/" ++ jsString id ++ "/lock")
        jsonHeaders st1 with
    | (r, st2, tr2) => (r, st2, tr1 ++ tr2)
  | (r, st1, tr1) => (r, st1, tr1)

/-- MediaWikiJS.unlockPost: fresh cookies, then one DELETE to
threads/{id}/lock. -/
def unlockPost (env : Env) (accountUsername accountPassword wikiId : Json)
    (id : Json) (st : OldAPI.State) : JsOutcome × OldAPI.State × List HttpCall :=
  match getFandomCookies env accountUsername accountPassword st with
  | (.ok _, st1, tr1) =>
    match OldAPI.delete env (discussionsBaseUrl wikiId ++ "/threads/" ++ jsString id ++ "/lock")
        jsonHeaders st1 with
    | (r, st2, tr2) => (r, st2, tr1 ++ tr2)
  | (r, st1, tr1) => (r, st1, tr1)

end MediaWikiJS

/-! Concrete states, environments and trace predicates used by the
claim scenarios. -/

/-- A client state in which the API session holds a cookie and a
cached token, exhibiting the C3 divergence. -/
def c3Client : MediaWikiJS.ClientState :=
  { server := "https://en.wikipedia.org", path := "/w",
    botUsername := .str "u", botPassword := .str "p",
    accountUsername := .undefined, accountPassword := .undefined, wikiId := .undefined,
    jar := ["facade=1"],
    api := { server := "https://en.wikipedia.org", path := "/w",
             jar := ["session=abc"], mwToken := .str "T123", calls := 5 } }

/-- A fresh session against a test endpoint, used by the concrete
scenarios below. -/
def st0 : API.State := API.mkApi "https://test.example.org" "/w"

/-- A network that never returns a body. -/
def envNoBody : Env := fun _ => { body := .undefined, cookies := [] }

/-- A network whose error envelope fakes the transport failure text. -/
def envFakeInfo : Env := fun _ =>
  { body := .obj [("error", .obj [("code", .str "internal_api_error_DBQueryError"),
      ("info", .str "Request did not return a body")])], cookies := [] }

/-- A network returning an ordinary error envelope with a code and an
info text. -/
def envDropsCode : Env := fun _ =>
  { body := .obj [("error", .obj [("code", .str "protectedpage"),
      ("info", .str "This page has been protected")])], cookies := [] }

/-- The MediaWikiJSError a caller observes for an outcome, if any. -/
def outcomeError : JsOutcome → Option MediaWikiJSError
  | .mwjsError k a => mkMediaWikiJSError k a
  | _ => none

/-- A network that resolves with a plain success body. -/
def envOkBody : Env := fun _ =>
  { body := .obj [("query", .obj [("pages", .arr [])])], cookies := [] }

/-- A network for a protect run: the first response carries a csrf
token and a cookie, the second a success body. -/
def envC8 : Env := fun n =>
  if n == 0 then
    { body := .obj [("query", .obj [("tokens", .obj [("csrftoken", .str "TOK99ABC")])])],
      cookies := ["cs=1"] }
  else
    { body := .obj [("protect", .obj [("title", .str "P")])], cookies := [] }

/-- The protections mapping of the spec's example. -/
def protOpts : MediaWikiJS.ProtectOptions :=
  { title := .str "P",
    protections := [("edit", .str "sysop"), ("move", .str "sysop")],
    expiry := .undefined, reason := .str "r", cascade := some (.bool true) }

/-- A fresh discussion-session state. -/
def oldSt0 : OldAPI.State :=
  { server := "https://test.example.org", path := "/w", jar := [], calls := 0 }

/-- A network whose cookie-acquisition response sets a session cookie
and returns no body (the source treats that as success). -/
def envAuthOk : Env := fun n =>
  if n == 0 then { body := .undefined, cookies := ["fandom_session=S"] }
  else { body := .obj [("threadId", .str "42")], cookies := [] }

/-- A network whose first response sets a discussion session cookie. -/
def envC4 : Env := fun n =>
  if n == 0 then { body := .undefined, cookies := ["fandom_session=S"] }
  else { body := .obj [("query", .obj [])], cookies := [] }

/-- A client with bot credentials against the test endpoint. -/
def c6Client : MediaWikiJS.ClientState :=
  MediaWikiJS.mkClient "https://test.example.org" "/w" (.str "u") (.str "p") .undefined .undefined .undefined

/-- A backend whose second login step answers with the legacy
NeedToken signal and an embedded second-phase token. -/
def envNeedToken : Env := fun n =>
  if n == 0 then
    { body := .obj [("query", .obj [("tokens", .obj [("logintoken", .str "LT1")])])],
      cookies := [] }
  else
    { body := .obj [("login", .obj [("result", .str "NeedToken"), ("token", .str "LT2")])],
      cookies := [] }

/-- A backend whose second login step answers with a failure result. -/
def envLoginFailed : Env := fun n =>
  if n == 0 then
    { body := .obj [("query", .obj [("tokens", .obj [("logintoken", .str "LT1")])])],
      cookies := [] }
  else
    { body := .obj [("login", .obj [("result", .str "Failed"),
        ("reason", .str "Incorrect password")])], cookies := [] }

/-- The parameters of a token-requiring delete action, used by the
badtoken scenarios. -/
def deleteParams : List (String × Json) :=
  [("action", .str "delete"), ("title", .str "P"), ("reason", .str "r")]

/-- A badtoken error envelope. -/
def badtokenBody : Json :=
  .obj [("error", .obj [("code", .str "badtoken"), ("info", .str "Invalid CSRF token.")])]

/-- A token-retrieval response carrying a csrf token. -/
def csrfTokenBody : Json :=
  .obj [("query", .obj [("tokens", .obj [("csrftoken", .str "TOKALT")])])]

/-- A backend that rejects every action attempt as badtoken and answers
every token retrieval with a fresh token: attempts land on even call
indices, token fetches on odd ones. -/
def envAlt : Env := fun n =>
  if n % 2 == 0 then { body := badtokenBody, cookies := [] }
  else { body := csrfTokenBody, cookies := [] }

/-- Recognizes a csrf token-retrieval call in a trace. -/
def isTokenFetch (c : HttpCall) : Bool :=
  (objGet c.form "action").isStr "query" && (objGet c.form "meta").isStr "tokens"
    && (objGet c.form "type").isStr "csrf"

/-- Recognizes an attempt of the delete action in a trace. -/
def isDeleteAttempt (c : HttpCall) : Bool :=
  (objGet c.form "action").isStr "delete"

/-! General lemmas about the embedding. -/

/-- Reading back a key just assigned by `objSet` yields the assigned
value. -/
theorem objGet_objSet (o : List (String × Json)) (k : String) (v : Json) :
    objGet (objSet o k v) k = v := by
  induction o with
  | nil => simp [objSet, objGet, List.lookup]
  | cons p rest ih =>
    rcases p with ⟨pk, pv⟩
    cases hp : (pk == k) with
    | true =>
      have hk : (k == pk) = true := by
        rw [beq_iff_eq] at hp ⊢
        exact hp.symm
      simp [objSet, objGet, List.lookup, hp, hk]
    | false =>
      have hk : (k == pk) = false := by
        rw [beq_eq_false_iff_ne] at hp ⊢
        exact fun h => hp h.symm
      cases hr : rest.any (fun q => q.1 == k) with
      | true =>
        have hrs : objSet rest k v = rest.map (fun q => cond (q.1 == k) (k, v) q) := by
          simp [objSet, hr]
        have ihr := ih
        rw [hrs] at ihr
        simp [objSet, objGet, List.any_cons, hp, hr, List.lookup, hk] at ihr ⊢
        exact ihr
      | false =>
        have hrs : objSet rest k v = rest ++ [(k, v)] := by
          simp [objSet, hr]
        have ihr := ih
        rw [hrs] at ihr
        simp [objSet, objGet, List.any_cons, hp, hr, List.lookup, hk] at ihr ⊢
        exact ihr

/-- The trace of a dispatched `#mw` call always starts with the record
of the initial attempt. -/
theorem mw_trace_cons (env : Env) (fuel : Nat) (params : List (String × Json))
    (csrf : Bool) (method : String) (st : API.State) :
    (API.mw env (fuel + 1) params csrf method st).2.2 =
      API.attemptCall params csrf method st ::
        (API.mw env (fuel + 1) params csrf method st).2.2.tail :=
  rfl

/-- The trace of MediaWikiJS.getToken starts with the csrf
token-retrieval call issued from the entry state. -/
theorem getToken_trace_cons (env : Env) (fuel : Nat) (st : API.State) :
    ∃ rest, (MediaWikiJS.getToken env (fuel + 1) st).2.2 =
      API.attemptCall API.tokenParams false "get" st :: rest := by
  simp only [MediaWikiJS.getToken, API.get]
  split
  next body st1 tr1 heq =>
    have h3 := mw_trace_cons env fuel [("action", Json.str "query"),
      ("meta", Json.str "tokens"), ("type", Json.str "csrf")] false "get" st
    rw [heq] at h3
    split <;> exact ⟨_, h3⟩
  next r st1 tr1 hne heq =>
    have h3 := mw_trace_cons env fuel [("action", Json.str "query"),
      ("meta", Json.str "tokens"), ("type", Json.str "csrf")] false "get" st
    rw [heq] at h3
    exact ⟨_, h3⟩

/-- The first HTTP call of MediaWikiJS.doEdit is the csrf
token-retrieval call. -/
theorem doEdit_trace_head (env : Env) (fuel : Nat) (params : List (String × Json))
    (st : API.State) :
    (MediaWikiJS.doEdit env (fuel + 1) params st).2.2.head? =
      some (API.attemptCall API.tokenParams false "get" st) := by
  obtain ⟨rest, hrest⟩ := getToken_trace_cons env fuel st
  simp only [MediaWikiJS.doEdit]
  split
  next token st1 tr1 heq =>
    rw [heq] at hrest
    simp only at hrest
    simp [hrest]
  next r st1 tr1 hne heq =>
    rw [heq] at hrest
    simp only at hrest
    simp [hrest]

/-! Claim theorems. -/

/-- C2: setServer repoints the endpoint, clears all cookies from the
(private) cookie store and resets the cached token to the sentinel, so
the next token-requiring call performs a fresh token retrieval (the
first HTTP call of a subsequent doEdit is the csrf token-retrieval
call) and a dispatcher attempt after the reset attaches the sentinel,
never a token fetched under the old endpoint. -/
theorem C2_setServer_invalidates_session (server path : String) (st : API.State) :
    (API.setServer server path st).server = server ∧
    (API.setServer server path st).path = path ∧
    (API.setServer server path st).jar = [] ∧
    (API.setServer server path st).mwToken = .str "+\\" ∧
    (∀ env fuel params,
      (MediaWikiJS.doEdit env (fuel + 1) params (API.setServer server path st)).2.2.head? =
        some (API.attemptCall API.tokenParams false "get" (API.setServer server path st))) ∧
    (∀ params method,
      objGet (API.attemptCall params true method (API.setServer server path st)).form "token" =
        .str "+\\") := by
  refine ⟨rfl, rfl, rfl, rfl, ?_, ?_⟩
  · intro env fuel params
    exact doEdit_trace_head env fuel params (API.setServer server path st)
  · intro params method
    exact objGet_objSet _ "token" _

/-- C3: the claim says client logout clears the session cookie store,
resets the cached token to the sentinel and contacts no server.  The
code issues no HTTP call, but it empties only the facade's own jar —
which the rewritten API constructor ignores — and leaves the API's
private jar and cached token untouched; the claimed behavior is
implemented by API.logout, which MediaWikiJS.logout never invokes. -/
theorem C3_client_logout_keeps_token :
    (MediaWikiJS.logout c3Client).2 = [] ∧
    (MediaWikiJS.logout c3Client).1.jar = [] ∧
    (MediaWikiJS.logout c3Client).1.api.jar = ["session=abc"] ∧
    (MediaWikiJS.logout c3Client).1.api.mwToken = .str "T123" ∧
    API.logout c3Client.api =
      { server := "https://en.wikipedia.org", path := "/w",
        jar := [], mwToken := .str "+\\", calls := 5 } :=
  ⟨rfl, rfl, rfl, rfl, rfl⟩

/-- C7: purge builds its parameters by case — a list of strings joins
the titles with the pipe, a category string becomes a generator purge,
a list of numbers joins page ids, and a single non-category string is
first normalized to a one-element list. -/
theorem C7_purge_params :
    MediaWikiJS.purgeParams (.arr [.str "Page A", .str "Page B"]) =
      [("action", .str "purge"), ("titles", .str "Page A|Page B")] ∧
    MediaWikiJS.purgeParams (.str "Category:Stubs") =
      [("action", .str "purge"), ("generator", .str "categorymembers"),
       ("gcmtitle", .str "Category:Stubs")] ∧
    MediaWikiJS.purgeParams (.arr [.num 1, .num 2]) =
      [("action", .str "purge"), ("pageids", .str "1|2")] ∧
    (∀ s : String, strStartsWith s "Category:" = false →
      MediaWikiJS.purgeParams (.str s) = MediaWikiJS.purgeParams (.arr [.str s])) := by
  refine ⟨rfl, rfl, rfl, ?_⟩
  intro s h
  simp [MediaWikiJS.purgeParams, h]

/-- C7 witness: the single non-category string case at a concrete
input. -/
theorem C7_purge_params_witness :
    strStartsWith "Sandbox" "Category:" = false ∧
    MediaWikiJS.purgeParams (.str "Sandbox") = MediaWikiJS.purgeParams (.arr [.str "Sandbox"]) :=
  ⟨rfl, C7_purge_params.2.2.2 "Sandbox" rfl⟩

/-- C9: edit, prepend and append all funnel through doEdit with the
same shared fields and differ only in which content parameter carries
the content (text, prependtext, appendtext); the issued parameter sets
are otherwise identical, minor defaults to true when not supplied and
is false exactly when explicitly set false. -/
theorem C9_edit_variants_one_primitive (env : Env) (fuel : Nat) (t c s tok : Json)
    (m : Option Json) (st : API.State) :
    MediaWikiJS.edit env fuel ⟨t, c, s, m⟩ st =
      MediaWikiJS.doEdit env fuel (objLit [("title", t), ("text", c), ("summary", s),
        ("minor", m.getD (.bool true))]) st ∧
    MediaWikiJS.prepend env fuel ⟨t, c, s, m⟩ st =
      MediaWikiJS.doEdit env fuel (objLit [("title", t), ("prependtext", c), ("summary", s),
        ("minor", m.getD (.bool true))]) st ∧
    MediaWikiJS.append env fuel ⟨t, c, s, m⟩ st =
      MediaWikiJS.doEdit env fuel (objLit [("title", t), ("appendtext", c), ("summary", s),
        ("minor", m.getD (.bool true))]) st ∧
    MediaWikiJS.doEditParams (objLit [("title", t), ("text", c), ("summary", s),
        ("minor", m.getD (.bool true))]) tok =
      [("action", .str "edit"), ("bot", .str ""), ("minor", m.getD (.bool true)),
       ("title", t), ("text", c), ("summary", s), ("token", tok)] ∧
    MediaWikiJS.doEditParams (objLit [("title", t), ("prependtext", c), ("summary", s),
        ("minor", m.getD (.bool true))]) tok =
      [("action", .str "edit"), ("bot", .str ""), ("minor", m.getD (.bool true)),
       ("title", t), ("prependtext", c), ("summary", s), ("token", tok)] ∧
    MediaWikiJS.doEditParams (objLit [("title", t), ("appendtext", c), ("summary", s),
        ("minor", m.getD (.bool true))]) tok =
      [("action", .str "edit"), ("bot", .str ""), ("minor", m.getD (.bool true)),
       ("title", t), ("appendtext", c), ("summary", s), ("token", tok)] ∧
    (m.getD (.bool true) = .bool false ↔ m = some (.bool false)) := by
  refine ⟨rfl, rfl, rfl, rfl, rfl, rfl, ?_⟩
  cases m with
  | none => simp [Option.getD]
  | some v => cases v <;> simp [Option.getD]

/-- Any dispatched call that resolves does so with a body whose error
field is not truthy: no successful-looking result is returned alongside
an error envelope. -/
theorem mw_ok_no_error : ∀ (f : Nat) (env : Env) (params : List (String × Json))
    (csrf : Bool) (method : String) (st : API.State) (b : Json),
    (API.mw env f params csrf method st).1 = .ok b →
    (b.getField "error").truthy = false := by
  intro f
  induction f with
  | zero =>
    intro env params csrf method st b h
    simp [API.mw] at h
  | succ n ih =>
    intro env params csrf method st b h
    simp only [API.mw] at h
    split at h
    · simp at h
    · split at h
      · split at h
        · split at h
          next tokenPack stA trA heqA =>
            split at h
            · exact ih env params csrf method _ b h
            · split at h
              next pack2 stC trC heqC =>
                split at h
                · simp at h
                · exact ih env params csrf method _ b h
              next r stC trC hne heqC =>
                exact absurd (hne b) (fun hh => hh h)
          next r stA trA hne heqA =>
            exact absurd (hne b) (fun hh => hh h)
        · simp at h
      · simp only [JsOutcome.ok.injEq] at h
        rw [← h]
        next herr => simp at herr; simp [herr]

/-- C5 counterexample: the no-body failure and an upstream error
envelope produce the same outcome and render to identical
MediaWikiJSError values (key MEDIAWIKI_ERROR, same message), so the
two failure kinds are not distinguishable by the caller; and for an
envelope with code protectedpage the thrown error carries only the
info text — the upstream code is dropped. -/
theorem C5_counterexample :
    (API.mw envNoBody 1 [("action", .str "query")] false "get" st0).1 =
      (API.mw envFakeInfo 1 [("action", .str "query")] false "get" st0).1 ∧
    outcomeError (API.mw envNoBody 1 [("action", .str "query")] false "get" st0).1 =
      some { code := "MEDIAWIKI_ERROR",
             message := "Error returned by API: Request did not return a body" } ∧
    outcomeError (API.mw envDropsCode 1 [("action", .str "query")] false "get" st0).1 =
      some { code := "MEDIAWIKI_ERROR",
             message := "Error returned by API: This page has been protected" } :=
  ⟨rfl, rfl, rfl⟩

/-- C5 (amended): a response with no body fails with the single error
kind MEDIAWIKI_ERROR and the fixed info text; a non-badtoken error
envelope fails with the same kind carrying only the envelope's info
(the upstream code is dropped); and a call that resolves never does so
with a body holding an error envelope. -/
theorem C5_error_propagation :
    (∀ (env : Env) (fuel : Nat) (params : List (String × Json)) (csrf : Bool)
        (method : String) (st : API.State),
      (env st.calls).body.truthy = false →
      API.mw env (fuel + 1) params csrf method st =
        (.mwjsError "MEDIAWIKI_ERROR" (.str "Request did not return a body"),
         { st with calls := st.calls + 1, jar := st.jar ++ (env st.calls).cookies },
         [API.attemptCall params csrf method st])) ∧
    (∀ (env : Env) (fuel : Nat) (params : List (String × Json)) (csrf : Bool)
        (method : String) (st : API.State),
      (env st.calls).body.truthy = true →
      ((env st.calls).body.getField "error").truthy = true →
      (((env st.calls).body.getField "error").getField "code").isStr "badtoken" = false →
      API.mw env (fuel + 1) params csrf method st =
        (.mwjsError "MEDIAWIKI_ERROR" (((env st.calls).body.getField "error").getField "info"),
         { st with calls := st.calls + 1, jar := st.jar ++ (env st.calls).cookies },
         [API.attemptCall params csrf method st])) ∧
    (∀ (fuel : Nat) (env : Env) (params : List (String × Json)) (csrf : Bool)
        (method : String) (st : API.State) (b : Json),
      (API.mw env fuel params csrf method st).1 = .ok b →
      (b.getField "error").truthy = false) := by
  refine ⟨?_, ?_, mw_ok_no_error⟩
  · intro env fuel params csrf method st h
    simp [API.mw, h]
  · intro env fuel params csrf method st h1 h2 h3
    simp [API.mw, h1, h2, h3]

/-- C5 witness: each part of the propagation theorem applied at a
concrete environment. -/
theorem C5_error_propagation_witness :
    ((envNoBody st0.calls).body.truthy = false ∧
      API.mw envNoBody 1 [("action", .str "query")] false "get" st0 =
        (.mwjsError "MEDIAWIKI_ERROR" (.str "Request did not return a body"),
         { st0 with calls := st0.calls + 1, jar := st0.jar ++ (envNoBody st0.calls).cookies },
         [API.attemptCall [("action", .str "query")] false "get" st0])) ∧
    ((envDropsCode st0.calls).body.truthy = true ∧
      API.mw envDropsCode 1 [("action", .str "query")] false "get" st0 =
        (.mwjsError "MEDIAWIKI_ERROR"
           (((envDropsCode st0.calls).body.getField "error").getField "info"),
         { st0 with calls := st0.calls + 1, jar := st0.jar ++ (envDropsCode st0.calls).cookies },
         [API.attemptCall [("action", .str "query")] false "get" st0])) ∧
    ((API.mw envOkBody 1 [("action", .str "query")] false "get" st0).1 =
        .ok (.obj [("query", .obj [("pages", .arr [])])]) ∧
      ((Json.obj [("query", .obj [("pages", .arr [])])]).getField "error").truthy = false) :=
  ⟨⟨rfl, C5_error_propagation.1 envNoBody 0 [("action", .str "query")] false "get" st0 rfl⟩,
   ⟨rfl, C5_error_propagation.2.1 envDropsCode 0 [("action", .str "query")] false "get" st0
      rfl rfl rfl⟩,
   ⟨rfl, C5_error_propagation.2.2 1 envOkBody [("action", .str "query")] false "get" st0
      (.obj [("query", .obj [("pages", .arr [])])]) rfl⟩⟩

/-- C8: for every protections mapping, protect serializes it to
key=value pairs joined by the pipe in mapping-iteration order, and the
issued request carries the token fetched by the token-retrieval call
performed at the start of this very protect invocation (the first of
the exactly two HTTP calls). -/
theorem C8_protect_serializes (env : Env) (fuel : Nat) (opts : MediaWikiJS.ProtectOptions)
    (st : API.State)
    (h1 : (env st.calls).body.truthy = true)
    (h2 : ((env st.calls).body.getField "error").truthy = false)
    (h3 : ((env st.calls).body.getField "query").truthy = true)
    (h4 : (((env st.calls).body.getField "query").getField "tokens").truthy = true)
    (h5 : ((((env st.calls).body.getField "query").getField "tokens").getField "csrftoken").truthy
      = true)
    (h6 : ((((env st.calls).body.getField "query").getField "tokens").getField
      "csrftoken").isStr "+\\" = false)
    (h7 : (env (st.calls + 1)).body.truthy = true)
    (h8 : ((env (st.calls + 1)).body.getField "error").truthy = false) :
    MediaWikiJS.protect env (fuel + 1) opts st =
      (.ok (env (st.calls + 1)).body,
       { st with calls := st.calls + 2,
                 jar := (st.jar ++ (env st.calls).cookies) ++ (env (st.calls + 1)).cookies },
       [API.attemptCall API.tokenParams false "get" st,
        { url := st.server ++ st.path ++ "/api.php", method := "post",
          form := [("action", .str "protect"), ("title", opts.title),
            ("protections", .str (MediaWikiJS.formattedProtections opts.protections)),
            ("expiry", opts.expiry), ("reason", opts.reason),
            ("cascade", opts.cascade.getD (.bool false)),
            ("token",
              (((env st.calls).body.getField "query").getField "tokens").getField "csrftoken"),
            ("format", .str "json"), ("formatversion", .num 2)],
          jar := st.jar ++ (env st.calls).cookies }]) := by
  have e1 : API.mw env (fuel + 1) [("action", .str "query"), ("meta", .str "tokens"),
      ("type", .str "csrf")] false "get" st =
      (.ok (env st.calls).body,
       { st with calls := st.calls + 1, jar := st.jar ++ (env st.calls).cookies },
       [API.attemptCall API.tokenParams false "get" st]) := by
    simp [API.mw, h1, h2]
    rfl
  have eg : MediaWikiJS.getToken env (fuel + 1) st =
      (.ok ((((env st.calls).body.getField "query").getField "tokens").getField "csrftoken"),
       { st with calls := st.calls + 1, jar := st.jar ++ (env st.calls).cookies },
       [API.attemptCall API.tokenParams false "get" st]) := by
    simp only [MediaWikiJS.getToken, API.get, e1]
    simp [h1, h3, h4, h5, h6]
  simp only [MediaWikiJS.protect, eg, API.post]
  simp [API.mw, h7, h8]
  rfl

/-- C8 witness: the protect run at the concrete environment, with the
mapping of the spec's example serializing to edit=sysop|move=sysop and
the freshly fetched token TOK99ABC in the issued form. -/
theorem C8_protect_serializes_witness :
    (envC8 st0.calls).body.truthy = true ∧
    MediaWikiJS.formattedProtections [("edit", .str "sysop"), ("move", .str "sysop")] =
      "edit=sysop|move=sysop" ∧
    MediaWikiJS.protect envC8 1 protOpts st0 =
      (.ok (.obj [("protect", .obj [("title", .str "P")])]),
       { server := "https://test.example.org", path := "/w", jar := ["cs=1"],
         mwToken := .str "+\\", calls := 2 },
       [{ url := "https://test.example.org/w/api.php", method := "get",
          form := [("action", .str "query"), ("meta", .str "tokens"), ("type", .str "csrf"),
            ("format", .str "json"), ("formatversion", .num 2)],
          jar := [] },
        { url := "https://test.example.org/w/api.php", method := "post",
          form := [("action", .str "protect"), ("title", .str "P"),
            ("protections", .str "edit=sysop|move=sysop"), ("expiry", .undefined),
            ("reason", .str "r"), ("cascade", .bool true), ("token", .str "TOK99ABC"),
            ("format", .str "json"), ("formatversion", .num 2)],
          jar := ["cs=1"] }]) :=
  ⟨rfl, rfl,
   C8_protect_serializes envC8 0 protOpts st0 rfl rfl rfl rfl rfl rfl rfl rfl⟩

/-- C10: every discussion-thread lifecycle call first completes exactly
one cookie-acquisition call (POST /auth/token with the account
credentials) and then issues exactly one HTTP call of the operation —
PUT threads/id/delete, /undelete, /lock, DELETE threads/id/lock, and
POST forums/category/threads for creation — from any prior state of
the discussion session. -/
theorem C10_thread_lifecycle (env : Env) (u p w i title content : Json)
    (cat : Option Json) (st : OldAPI.State)
    (hAuth : ((env st.calls).body.truthy && ((env st.calls).body.getField "error").truthy)
      = false) :
    (MediaWikiJS.deletePost env u p w i st).2.2 =
      [{ url := "https://services.fandom.com/auth/token", method := "post",
         form := [("form", .obj [("username", u), ("password", p)])], jar := st.jar },
       { url := MediaWikiJS.discussionsBaseUrl w ++ "/threads/" ++ jsString i ++ "/delete",
         method := "put", form := MediaWikiJS.jsonHeaders,
         jar := st.jar ++ (env st.calls).cookies }] ∧
    (MediaWikiJS.undeletePost env u p w i st).2.2 =
      [{ url := "https://services.fandom.com/auth/token", method := "post",
         form := [("form", .obj [("username", u), ("password", p)])], jar := st.jar },
       { url := MediaWikiJS.discussionsBaseUrl w ++ "/threads/" ++ jsString i ++ "/undelete",
         method := "put", form := MediaWikiJS.jsonHeaders,
         jar := st.jar ++ (env st.calls).cookies }] ∧
    (MediaWikiJS.lockPost env u p w i st).2.2 =
      [{ url := "https://services.fandom.com/auth/token", method := "post",
         form := [("form", .obj [("username", u), ("password", p)])], jar := st.jar },
       { url := MediaWikiJS.discussionsBaseUrl w ++ "/threads/" ++ jsString i ++ "/lock",
         method := "put", form := MediaWikiJS.jsonHeaders,
         jar := st.jar ++ (env st.calls).cookies }] ∧
    (MediaWikiJS.unlockPost env u p w i st).2.2 =
      [{ url := "https://services.fandom.com/auth/token", method := "post",
         form := [("form", .obj [("username", u), ("password", p)])], jar := st.jar },
       { url := MediaWikiJS.discussionsBaseUrl w ++ "/threads/" ++ jsString i ++ "/lock",
         method := "delete", form := MediaWikiJS.jsonHeaders,
         jar := st.jar ++ (env st.calls).cookies }] ∧
    (MediaWikiJS.post env u p w title content cat st).2.2 =
      [{ url := "https://services.fandom.com/auth/token", method := "post",
         form := [("form", .obj [("username", u), ("password", p)])], jar := st.jar },
       { url := MediaWikiJS.discussionsBaseUrl w ++ "/forums/" ++ jsString (cat.getD w)
           ++ "/threads",
         method := "post",
         form := [("body", .str (jsonStringify (MediaWikiJS.postThreadBody w title content))),
                  ("headers", .obj [("Content-Type", .str "application/json")])],
         jar := st.jar ++ (env st.calls).cookies }] := by
  refine ⟨?_, ?_, ?_, ?_, ?_⟩ <;>
    (simp [MediaWikiJS.deletePost, MediaWikiJS.undeletePost, MediaWikiJS.lockPost,
      MediaWikiJS.unlockPost, MediaWikiJS.post, MediaWikiJS.getFandomCookies,
      OldAPI.postF, OldAPI.put, OldAPI.delete, OldAPI.send, hAuth]
     try rfl)

/-- C10 witness: deletePost(42) at a concrete environment issues the
cookie call and then exactly one PUT threads/42/delete. -/
theorem C10_thread_lifecycle_witness :
    ((envAuthOk oldSt0.calls).body.truthy
      && ((envAuthOk oldSt0.calls).body.getField "error").truthy) = false ∧
    (MediaWikiJS.deletePost envAuthOk (.str "u") (.str "p") (.str "4060") (.num 42)
        oldSt0).2.2 =
      [{ url := "https://services.fandom.com/auth/token", method := "post",
         form := [("form", .obj [("username", .str "u"), ("password", .str "p")])],
         jar := [] },
       { url := "https://services.fandom.com/discussion/4060/threads/42/delete",
         method := "put", form := MediaWikiJS.jsonHeaders, jar := ["fandom_session=S"] }] :=
  ⟨rfl, (C10_thread_lifecycle envAuthOk (.str "u") (.str "p") (.str "4060") (.num 42)
    (.str "T") (.str "C") none oldSt0 rfl).1⟩

/-- C4 counterexample: after one discussion cookie-acquisition call,
the shared jar holds the discussion cookie and the very next wiki-API
get sends it — the wiki pipeline reads cookie state written by the
discussion pipeline, so the two stores are not disjoint. -/
theorem C4_counterexample :
    (MediaWikiJS.getFandomCookies envC4 (.str "u") (.str "p") oldSt0).2.1.jar =
      ["fandom_session=S"] ∧
    (OldAPI.get envC4 [("action", .str "query")]
        ((MediaWikiJS.getFandomCookies envC4 (.str "u") (.str "p") oldSt0).2.1)).2.2 =
      [{ url := "https://test.example.org/w/api.php", method := "get",
         form := [("action", .str "query"), ("format", .str "json")],
         jar := ["fandom_session=S"] }] :=
  ⟨rfl, rfl⟩

/-- C4 (amended): the wiki-API calls and the discussion-service calls
of one client share a single cookie store — the old api.js stores the
facade's jar and passes it as the cookieJar of both the api.php
requests and the discussion requests, so cookies merged by either
pipeline are sent by the next call of the other; only the rewritten
API.js private token cache is untouched by the discussion path, which
that class does not implement at all. -/
theorem C4_shared_cookie_jar (env : Env) (u p : Json) (params : List (String × Json))
    (st : OldAPI.State) :
    (MediaWikiJS.getFandomCookies env u p st).2.2 =
      [{ url := "https://services.fandom.com/auth/token", method := "post",
         form := [("form", .obj [("username", u), ("password", p)])], jar := st.jar }] ∧
    (OldAPI.get env params st).2.2 =
      [{ url := st.server ++ st.path ++ "/api.php", method := "get",
         form := objLit (params ++ [("format", .str "json")]), jar := st.jar }] ∧
    (OldAPI.get env params ((MediaWikiJS.getFandomCookies env u p st).2.1)).2.2 =
      [{ url := st.server ++ st.path ++ "/api.php", method := "get",
         form := objLit (params ++ [("format", .str "json")]),
         jar := st.jar ++ (env st.calls).cookies }] ∧
    (MediaWikiJS.getFandomCookies env u p ((OldAPI.get env params st).2.1)).2.2 =
      [{ url := "https://services.fandom.com/auth/token", method := "post",
         form := [("form", .obj [("username", u), ("password", p)])],
         jar := st.jar ++ (env st.calls).cookies }] :=
  ⟨rfl, rfl, rfl, rfl⟩

/-- C6 counterexample: on the legacy NeedToken signal the code does
not resubmit — login resolves with the NeedToken body after exactly
two HTTP calls — and on a Failed result it resolves with the failure
body instead of throwing a login error. -/
theorem C6_counterexample :
    (MediaWikiJS.login envNeedToken 1 c6Client).1 =
      .ok (.obj [("login", .obj [("result", .str "NeedToken"), ("token", .str "LT2")])]) ∧
    (MediaWikiJS.login envNeedToken 1 c6Client).2.2.length = 2 ∧
    (MediaWikiJS.login envLoginFailed 1 c6Client).1 =
      .ok (.obj [("login", .obj [("result", .str "Failed"),
        ("reason", .str "Incorrect password")])]) :=
  ⟨rfl, rfl, rfl⟩

/-- C6 (amended): login fetches a login token and, when the response
has truthy query.tokens, posts the credentials with that logintoken
once, returning the second response as-is (NeedToken and failure
results included — no resubmission, no login error); when the token
response shape is invalid it throws FAILED_LOGIN with no argument,
which renders with the generic text. -/
theorem C6_login_two_posts (env : Env) (fuel : Nat) (cs : MediaWikiJS.ClientState)
    (h1 : (env cs.api.calls).body.truthy = true)
    (h2 : ((env cs.api.calls).body.getField "error").truthy = false) :
    (((env cs.api.calls).body.getField "query").truthy = true →
     (((env cs.api.calls).body.getField "query").getField "tokens").truthy = true →
      MediaWikiJS.login env (fuel + 1) cs =
        ((API.mw env (fuel + 1) (MediaWikiJS.loginSubmit cs (env cs.api.calls).body)
            false "post" (API.bump env cs.api)).1,
         { cs with api := (API.mw env (fuel + 1)
            (MediaWikiJS.loginSubmit cs (env cs.api.calls).body)
            false "post" (API.bump env cs.api)).2.1 },
         API.attemptCall MediaWikiJS.loginTokenParams false "post" cs.api ::
           (API.mw env (fuel + 1) (MediaWikiJS.loginSubmit cs (env cs.api.calls).body)
             false "post" (API.bump env cs.api)).2.2)) ∧
    ((((env cs.api.calls).body.getField "query").truthy
        && (((env cs.api.calls).body.getField "query").getField "tokens").truthy) = false →
      MediaWikiJS.login env (fuel + 1) cs =
        (.mwjsError "FAILED_LOGIN" .undefined,
         { cs with api := API.bump env cs.api },
         [API.attemptCall MediaWikiJS.loginTokenParams false "post" cs.api])) ∧
    outcomeError (.mwjsError "FAILED_LOGIN" .undefined) =
      some { code := "FAILED_LOGIN", message := "Login was unsuccessful: undefined" } := by
  have e1 : API.mw env (fuel + 1) MediaWikiJS.loginTokenParams false "post" cs.api =
      (.ok (env cs.api.calls).body, API.bump env cs.api,
       [API.attemptCall MediaWikiJS.loginTokenParams false "post" cs.api]) := by
    simp [API.mw, h1, h2, API.bump]
  refine ⟨?_, ?_, rfl⟩
  · intro h3 h4
    simp only [MediaWikiJS.login, API.post, e1]
    simp [h1, h3, h4]
  · intro hq
    simp only [MediaWikiJS.login, API.post, e1]
    simp [h1, hq]

/-- C6 witness: the two-post branch applied at the NeedToken backend;
the run makes exactly the token post and one login post and resolves
with the NeedToken body. -/
theorem C6_login_two_posts_witness :
    (envNeedToken c6Client.api.calls).body.truthy = true ∧
    ((envNeedToken c6Client.api.calls).body.getField "query").truthy = true ∧
    MediaWikiJS.login envNeedToken 1 c6Client =
      (.ok (.obj [("login", .obj [("result", .str "NeedToken"), ("token", .str "LT2")])]),
       { server := "https://test.example.org", path := "/w",
         botUsername := .str "u", botPassword := .str "p",
         accountUsername := .undefined, accountPassword := .undefined, wikiId := .undefined,
         jar := [],
         api := { server := "https://test.example.org", path := "/w", jar := [],
                  mwToken := .str "+\\", calls := 2 } },
       [{ url := "https://test.example.org/w/api.php", method := "post",
          form := [("action", .str "query"), ("meta", .str "tokens"), ("type", .str "login"),
            ("format", .str "json"), ("formatversion", .num 2)],
          jar := [] },
        { url := "https://test.example.org/w/api.php", method := "post",
          form := [("action", .str "login"), ("lgname", .str "u"), ("lgpassword", .str "p"),
            ("lgtoken", .str "LT1"), ("format", .str "json"), ("formatversion", .num 2)],
          jar := [] }]) :=
  ⟨rfl, rfl, (C6_login_two_posts envNeedToken 0 c6Client rfl rfl).1 rfl rfl⟩

/-- One badtoken rejection whose token retrieval succeeds makes the
dispatcher refresh the cached token and re-dispatch the entire call
from the updated state: the replay is a full `#mw` invocation, able to
refresh again. -/
theorem mw_badtoken_refresh_law (env : Env) (fuel : Nat) (params : List (String × Json))
    (csrf : Bool) (method : String) (st : API.State)
    (h1 : (env st.calls).body.truthy = true)
    (h2 : ((env st.calls).body.getField "error").truthy = true)
    (h3 : (((env st.calls).body.getField "error").getField "code").isStr "badtoken" = true)
    (h4 : (env (st.calls + 1)).body.truthy = true)
    (h5 : ((env (st.calls + 1)).body.getField "error").truthy = false)
    (h6 : ((((env (st.calls + 1)).body.getField "query").getField "tokens").getField
      "csrftoken").truthy = true) :
    API.mw env (fuel + 2) params csrf method st =
      ((API.mw env (fuel + 1) params csrf method
          { API.bump env (API.bump env st) with
            mwToken := (((env (st.calls + 1)).body.getField "query").getField
              "tokens").getField "csrftoken" }).1,
       (API.mw env (fuel + 1) params csrf method
          { API.bump env (API.bump env st) with
            mwToken := (((env (st.calls + 1)).body.getField "query").getField
              "tokens").getField "csrftoken" }).2.1,
       API.attemptCall params csrf method st ::
         API.attemptCall API.tokenParams false "get" (API.bump env st) ::
         (API.mw env (fuel + 1) params csrf method
          { API.bump env (API.bump env st) with
            mwToken := (((env (st.calls + 1)).body.getField "query").getField
              "tokens").getField "csrftoken" }).2.2) := by
  show API.mw env (fuel + 1 + 1) params csrf method st = _
  simp [API.mw, API.bump, h1, h2, h3, h4, h5, h6]

/-- Against the backend that answers badtoken to every attempt, the
dispatch never terminates within any fuel bound: no error of any kind
is ever surfaced after the second badtoken — the recursion just
continues. -/
theorem mw_envAlt_diverges (f : Nat) : ∀ (st : API.State), st.calls % 2 = 0 →
    (API.mw envAlt f deleteParams true "post" st).1 = .outOfFuel := by
  induction f using Nat.strong_induction_on with
  | _ f ih =>
    match f with
    | 0 => intro st hst; rfl
    | 1 =>
      intro st hst
      have hb : (st.calls % 2 == 0) = true := by simp [hst]
      simp only [API.mw, envAlt, hb]
      rfl
    | (g + 2) =>
      intro st hst
      have hb : (st.calls % 2 == 0) = true := by simp [hst]
      have ho : (st.calls + 1) % 2 = 1 := by omega
      have hb1 : ((st.calls + 1) % 2 == 0) = false := by simp [ho]
      have h1 : (envAlt st.calls).body.truthy = true := by
        simp only [envAlt, hb]; rfl
      have h2 : ((envAlt st.calls).body.getField "error").truthy = true := by
        simp only [envAlt, hb]; rfl
      have h3 : (((envAlt st.calls).body.getField "error").getField "code").isStr "badtoken"
          = true := by
        simp only [envAlt, hb]; rfl
      have h4 : (envAlt (st.calls + 1)).body.truthy = true := by
        simp only [envAlt, hb1]; rfl
      have h5 : ((envAlt (st.calls + 1)).body.getField "error").truthy = false := by
        simp only [envAlt, hb1]; rfl
      have h6 : ((((envAlt (st.calls + 1)).body.getField "query").getField "tokens").getField
          "csrftoken").truthy = true := by
        simp only [envAlt, hb1]; rfl
      have hlaw := mw_badtoken_refresh_law envAlt g deleteParams true "post" st
        h1 h2 h3 h4 h5 h6
      rw [hlaw]
      exact ih (g + 1) (by omega) _ (by simp [API.bump]; omega)

/-- C1 counterexample: a single dispatched delete against the
always-badtoken backend performs eight token retrievals and nine
attempts within fuel nine and still has not terminated — there is no
TokenError after the second badtoken and no bound of one
refresh-and-replay. -/
theorem C1_counterexample :
    (API.mw envAlt 9 deleteParams true "post" st0).1 = .outOfFuel ∧
    ((API.mw envAlt 9 deleteParams true "post" st0).2.2.filter isTokenFetch).length = 8 ∧
    ((API.mw envAlt 9 deleteParams true "post" st0).2.2.filter isDeleteAttempt).length = 9 :=
  ⟨rfl, rfl, rfl⟩

/-- C1 (amended): on a badtoken response the dispatcher refreshes the
cached token through one token retrieval and replays the original
request — but the replay is a full re-dispatch, so a badtoken response
on the replay triggers another refresh and replay without bound; the
dispatch terminates only when some response is not a badtoken error,
and no TokenError is ever raised (the always-badtoken backend exhausts
every fuel bound without surfacing any error). -/
theorem C1_badtoken_refresh_unbounded :
    (∀ (env : Env) (fuel : Nat) (params : List (String × Json)) (csrf : Bool)
        (method : String) (st : API.State),
      (env st.calls).body.truthy = true →
      ((env st.calls).body.getField "error").truthy = true →
      (((env st.calls).body.getField "error").getField "code").isStr "badtoken" = true →
      (env (st.calls + 1)).body.truthy = true →
      ((env (st.calls + 1)).body.getField "error").truthy = false →
      ((((env (st.calls + 1)).body.getField "query").getField "tokens").getField
        "csrftoken").truthy = true →
      API.mw env (fuel + 2) params csrf method st =
        ((API.mw env (fuel + 1) params csrf method
            { API.bump env (API.bump env st) with
              mwToken := (((env (st.calls + 1)).body.getField "query").getField
                "tokens").getField "csrftoken" }).1,
         (API.mw env (fuel + 1) params csrf method
            { API.bump env (API.bump env st) with
              mwToken := (((env (st.calls + 1)).body.getField "query").getField
                "tokens").getField "csrftoken" }).2.1,
         API.attemptCall params csrf method st ::
           API.attemptCall API.tokenParams false "get" (API.bump env st) ::
           (API.mw env (fuel + 1) params csrf method
            { API.bump env (API.bump env st) with
              mwToken := (((env (st.calls + 1)).body.getField "query").getField
                "tokens").getField "csrftoken" }).2.2)) ∧
    (∀ (f : Nat) (st : API.State), st.calls % 2 = 0 →
      (API.mw envAlt f deleteParams true "post" st).1 = .outOfFuel) :=
  ⟨fun env fuel params csrf method st h1 h2 h3 h4 h5 h6 =>
    mw_badtoken_refresh_law env fuel params csrf method st h1 h2 h3 h4 h5 h6,
   fun f st hst => mw_envAlt_diverges f st hst⟩

/-- C1 witness: both parts applied at the always-badtoken backend from
a fresh session. -/
theorem C1_badtoken_refresh_unbounded_witness :
    ((envAlt st0.calls).body.truthy = true ∧
     ((envAlt st0.calls).body.getField "error").truthy = true ∧
     (((envAlt st0.calls).body.getField "error").getField "code").isStr "badtoken" = true ∧
     (envAlt (st0.calls + 1)).body.truthy = true ∧
     ((envAlt (st0.calls + 1)).body.getField "error").truthy = false ∧
     ((((envAlt (st0.calls + 1)).body.getField "query").getField "tokens").getField
       "csrftoken").truthy = true) ∧
    API.mw envAlt 2 deleteParams true "post" st0 =
      ((API.mw envAlt 1 deleteParams true "post"
          { API.bump envAlt (API.bump envAlt st0) with
            mwToken := (((envAlt (st0.calls + 1)).body.getField "query").getField
              "tokens").getField "csrftoken" }).1,
       (API.mw envAlt 1 deleteParams true "post"
          { API.bump envAlt (API.bump envAlt st0) with
            mwToken := (((envAlt (st0.calls + 1)).body.getField "query").getField
              "tokens").getField "csrftoken" }).2.1,
       API.attemptCall deleteParams true "post" st0 ::
         API.attemptCall API.tokenParams false "get" (API.bump envAlt st0) ::
         (API.mw envAlt 1 deleteParams true "post"
          { API.bump envAlt (API.bump envAlt st0) with
            mwToken := (((envAlt (st0.calls + 1)).body.getField "query").getField
              "tokens").getField "csrftoken" }).2.2) ∧
    st0.calls % 2 = 0 ∧
    (API.mw envAlt 5 deleteParams true "post" st0).1 = .outOfFuel :=
  ⟨⟨rfl, rfl, rfl, rfl, rfl, rfl⟩,
   C1_badtoken_refresh_unbounded.1 envAlt 0 deleteParams true "post" st0
     rfl rfl rfl rfl rfl rfl,
   rfl,
   C1_badtoken_refresh_unbounded.2 5 st0 rfl⟩
